import Mathlib

/-!
Verification of the powermon monitor (powermon.go) against its
natural-language specification.

The Go program is shallowly embedded: pure logic becomes Lean functions,
D-Bus interaction becomes an explicit environment record, the event loop
becomes a function over a list of inputs (signals and the quit request),
and the channel-based shutdown handshake becomes a labelled small-step
transition system.  Go runtime panics (failed type assertions, slice
index out of range) are an explicit constructor of the result type.
-/

namespace Powermon

/-- Type powerState is a `uint8` in the source (`type powerState uint8`);
the named constants `UNKNOWN`, `ON_BATTERY`, `AC_POWER` come from an
`iota` block. -/
abbrev powerState := Fin 256

def UNKNOWN : powerState := 0
def ON_BATTERY : powerState := 1
def AC_POWER : powerState := 2

/-- The `states` map (`map[powerState]string`), embedded as an
association list; only lookup is ever performed on it. -/
def states : List (powerState × String) :=
  [(UNKNOWN, "UNKNOWN"), (ON_BATTERY, "ON_BATTERY"), (AC_POWER, "AC_POWER")]

/-- Method `func (ps powerState) String() string \x7b return states[ps] \x7d`.
A Go map access for a missing key yields the zero value `""`. -/
def powerState.String (ps : powerState) : String :=
  (states.lookup ps).getD ""

/-- Well-known D-Bus name claimed by the program. -/
def pmon : String := "org.bdwalton.Powermon"

/-- Bus name of the UPower service. -/
def upower : String := "org.freedesktop.UPower"

/-- Object path of the UPower service. -/
def upowerPath : String := "/org/freedesktop/UPower"

/-- Name of the property of interest. -/
def onBattery : String := "OnBattery"

/-- One entry written to the log, one constructor per `log.Printf`
call site, carrying the arguments of the format string. -/
inductive LogEntry where
  | powerStateIs (s : String)
  | runningCmd (action arg : String)
  | errRunning (action arg err : String)
  | errOutput (out : String)
  | failedGetBattery (err : String)
  | polling
  | shuttingDown
  deriving DecidableEq, Repr

/-- Function `maybeLog` logs only when the `--verbose` flag is set. -/
def maybeLog (verbose : Bool) (e : LogEntry) : List LogEntry :=
  if verbose then [e] else []

/-- Function `reallyLog` logs unconditionally. -/
def reallyLog (e : LogEntry) : List LogEntry := [e]

/-- A `dbus.Variant` as it can appear as a property value: either a
boolean, or a value of some other D-Bus type (modelled by a string
payload, covering e.g. a malformed re-encoding of the property). -/
inductive Variant where
  | vBool (b : Bool)
  | vStr (s : String)
  deriving DecidableEq, Repr

/-- Rendering `dbus.Variant.String()` from the godbus library:
booleans render as `true`/`false`; a string value renders quoted. -/
def Variant.string : Variant → String
  | .vBool true => "true"
  | .vBool false => "false"
  | .vStr s => "\"" ++ s ++ "\""

/-- The `switch v.String()` in `run`: `"true"` selects `ON_BATTERY`,
`"false"` selects `AC_POWER`, anything else selects `UNKNOWN`. -/
def classifyVariant (v : Variant) : powerState :=
  if v.string = "true" then ON_BATTERY
  else if v.string = "false" then AC_POWER
  else UNKNOWN

/-- Outcome of running the external action once: `none` means success,
`some (e, out)` means the spawn failed or the command exited
non-zero, with the error text and the captured combined output. -/
abbrev ActionOutcome := Option (String × String)

/-- One spawned process: `exec.Command(p.action, s)` with its single
argument. -/
structure ExecCall where
  cmd : String
  arg : String
  deriving DecidableEq, Repr

/-- The process spawned by `stateChange`: the configured action, passed
the stringified state as its sole argument. -/
def execCall (action : String) (st : powerState) : ExecCall :=
  ⟨action, st.String⟩

/-- Method `stateChange`: logs the state, runs the action with the
stringified state as argument, and on failure logs the error and the
captured combined output.  All logging goes through `maybeLog`.
Returns the spawned call and the log entries produced; it neither
mutates the monitor state nor returns an error to its caller. -/
def stateChange (verbose : Bool) (action : String) (st : powerState)
    (fail : ActionOutcome) : ExecCall × List LogEntry :=
  (execCall action st,
    maybeLog verbose (.powerStateIs st.String) ++
    maybeLog verbose (.runningCmd action st.String) ++
    match fail with
    | some (e, out) =>
        maybeLog verbose (.errRunning action st.String e) ++
        maybeLog verbose (.errOutput out)
    | none => [])

/-- One element of a D-Bus signal body: either a property map
(`map[string]dbus.Variant`) or a value of any other type (the type
assertion in `run` fails on it). -/
inductive BodyElem where
  | propMap (m : List (String × Variant))
  | other (tag : String)
  deriving DecidableEq, Repr

/-- One input to the event loop's `select`: a signal from the D-Bus
channel, or the quit request on `quitCh`. -/
inductive Input where
  | sig (body : List BodyElem)
  | quit
  deriving DecidableEq, Repr

/-- Result of a piece of the program: normal value, returned Go
`error`, or a runtime panic. -/
inductive Outcome (α : Type) where
  | ok (a : α)
  | err (msg : String)
  | panicked (msg : String)
  deriving DecidableEq, Repr

/-- The `for \x7b select \x7b ... \x7d \x7d` loop of `run`, applied to
a finite prefix of the inputs it receives.  `outs` supplies the
outcome of each successive action invocation (consumed front to back).
Per iteration: a signal's body is indexed at position 1 (panic if
absent) and type-asserted to a property map (panic if not one); if the
map lacks the `OnBattery` key the signal is ignored; otherwise the
state is overwritten with the classification of the value and
`stateChange` runs.  A quit input returns from the loop, leaving later
inputs unprocessed.  Returns the final state, the action invocations
made, and the log. -/
def runLoop (verbose : Bool) (action : String) (st : powerState) :
    List Input → List ActionOutcome →
    Outcome (powerState × List ExecCall × List LogEntry)
  | [], _ => .ok (st, [], [])
  | .quit :: _, _ => .ok (st, [], maybeLog verbose .shuttingDown)
  | .sig body :: rest, outs =>
    match (body[1]? : Option BodyElem) with
    | none => .panicked "runtime error: index out of range"
    | some (.other t) =>
        .panicked ("interface conversion: interface \x7b\x7d is " ++ t ++
          ", not map[string]dbus.Variant")
    | some (.propMap m) =>
      match m.lookup onBattery with
      | none => runLoop verbose action st rest outs
      | some v =>
        let st' := classifyVariant v
        let cl := stateChange verbose action st' (outs.headD none)
        match runLoop verbose action st' rest outs.tail with
        | .ok (stf, acts, logs) => .ok (stf, cl.1 :: acts, cl.2 ++ logs)
        | r => r

/-- Method `run` itself: logs `polling...` and enters the loop. -/
def run (verbose : Bool) (action : String) (st : powerState)
    (ins : List Input) (outs : List ActionOutcome) :
    Outcome (powerState × List ExecCall × List LogEntry) :=
  match runLoop verbose action st ins outs with
  | .ok (stf, acts, logs) => .ok (stf, acts, maybeLog verbose .polling ++ logs)
  | r => r

/-- Projection forgetting the log component, keeping final state,
action invocations and the failure mode. -/
def stripLogs : Outcome (powerState × List ExecCall × List LogEntry) →
    Outcome (powerState × List ExecCall)
  | .ok (st, acts, _) => .ok (st, acts)
  | .err e => .err e
  | .panicked m => .panicked m

/-- A Go `interface\x7b\x7d` value returned by the initial
`GetProperty` read: a boolean, or a value of some other dynamic type
(on which the unguarded `.(bool)` assertion panics). -/
inductive GoVal where
  | goBool (b : Bool)
  | goOther (t : String)
  deriving DecidableEq, Repr

/-- Replies to `RequestName`. -/
inductive ReqReply where
  | primaryOwner
  | inQueue
  | nameExists
  | alreadyOwner
  deriving DecidableEq, Repr

/-- The external collaborators `newPowermon` interacts with, each
modelled as the result the call would produce. -/
structure Env where
  sessBus : Except String Unit
  reqName : Except String ReqReply
  sysBus : Except String Unit
  getProp : Except String GoVal
  addMatch : Except String Unit
  startAction : ActionOutcome

/-- Lines 90-101 of the source: derive the initial state from the
`OnBattery` property read.  A failed read logs (unconditionally, via
`reallyLog`) and falls back to `UNKNOWN`; a successful read is
type-asserted to `bool` without a guard, so a non-boolean value
panics; `true` maps to `ON_BATTERY` and `false` to `AC_POWER`. -/
def initialState : Except String GoVal →
    Outcome (powerState × List LogEntry)
  | .error e => .ok (UNKNOWN, reallyLog (.failedGetBattery e))
  | .ok (.goBool true) => .ok (ON_BATTERY, [])
  | .ok (.goBool false) => .ok (AC_POWER, [])
  | .ok (.goOther t) =>
      .panicked ("interface conversion: interface \x7b\x7d is " ++ t ++
        ", not bool")

/-- The constructed monitor value (connections and channel omitted:
they live in the shutdown model below). -/
structure PMon where
  action : String
  state : powerState
  deriving DecidableEq, Repr

/-- What `newPowermon` produced: the monitor, the log entries written,
and the action invocations it made. -/
structure NewResult where
  pm : PMon
  logs : List LogEntry
  actions : List ExecCall
  deriving DecidableEq, Repr

/-- Constructor `newPowermon`: connect to the session bus, claim the
well-known name, connect to the system bus, read the initial state,
run `stateChange` once, then install the signal match.  Each failing
setup step returns an error; the failing property read does not. -/
def newPowermon (verbose : Bool) (action : String) (env : Env) :
    Outcome NewResult :=
  match env.sessBus with
  | .error e => .err ("session bus connect failed: " ++ e)
  | .ok _ =>
  match env.reqName with
  | .error e => .err ("sessBus.RequestName(\"" ++ pmon ++ "\", 0): " ++ e)
  | .ok r =>
  if r ≠ ReqReply.primaryOwner then
    .err ("sessBus.RequestName(\"" ++ pmon ++ "\", 0): not the primary owner.")
  else
  match env.sysBus with
  | .error e => .err ("system bus connect failed: " ++ e)
  | .ok _ =>
  match initialState env.getProp with
  | .panicked m => .panicked m
  | .err m => .err m
  | .ok (st, logs0) =>
    let cl := stateChange verbose action st env.startAction
    match env.addMatch with
    | .error e => .err ("couldn't setup signal listener: " ++ e)
    | .ok _ => .ok ⟨⟨action, st⟩, logs0 ++ cl.2, [cl.1]⟩

/-- Lines 194-198 of `main`: a `newPowermon` error is logged and the
process exits with code 1; `some c` means `os.Exit(c)` is called. -/
def mainSetupExit : Outcome NewResult → Option Nat
  | .err _ => some 1
  | _ => none

/-! ## Shutdown handshake model

Method `run` ends with `defer close(p.quitCh)`; `shutdown` sends on
`quitCh`, receives from it (which unblocks when the deferred `close`
runs, i.e. when the loop has returned), then closes both bus
connections.  The two goroutines and the channel form a labelled
transition system. -/

inductive LoopPhase where
  | running
  | stopped
  deriving DecidableEq, Repr

inductive QuitChan where
  | empty
  | pending
  | closed
  deriving DecidableEq, Repr

/-- Progress of the `shutdown` caller: not yet called; sent on
`quitCh`; the receive completed (so `shutdown` can proceed); bus
connections closed (so `shutdown` has returned). -/
inductive ShutdownPhase where
  | notStarted
  | sentQuit
  | returned
  | busesClosed
  deriving DecidableEq, Repr

structure SysState where
  loop : LoopPhase
  quitCh : QuitChan
  sd : ShutdownPhase
  busOpen : Bool
  deriving DecidableEq, Repr

inductive Label where
  | event
  | recvQuit
  | sendQuit
  | ackQuit
  | closeBuses
  deriving DecidableEq, Repr

/-- One step of either goroutine.  `event`: the loop handles one
signal from the D-Bus channel (running the action if applicable);
`recvQuit`: the running loop receives the quit request, returns, and
its deferred `close(quitCh)` runs; `sendQuit`: `shutdown` sends on
`quitCh`; `ackQuit`: the receive in `shutdown` completes, which
requires the channel to be closed; `closeBuses`: `shutdown` closes the
bus connections and returns. -/
inductive Step : SysState → Label → SysState → Prop where
  | event (s : SysState) (h : s.loop = .running) : Step s .event s
  | recvQuit (s : SysState) (hl : s.loop = .running)
      (hq : s.quitCh = .pending) :
      Step s .recvQuit { s with loop := .stopped, quitCh := .closed }
  | sendQuit (s : SysState) (hs : s.sd = .notStarted)
      (hq : s.quitCh = .empty) :
      Step s .sendQuit { s with quitCh := .pending, sd := .sentQuit }
  | ackQuit (s : SysState) (hs : s.sd = .sentQuit)
      (hq : s.quitCh = .closed) :
      Step s .ackQuit { s with sd := .returned }
  | closeBuses (s : SysState) (hs : s.sd = .returned) :
      Step s .closeBuses { s with sd := .busesClosed, busOpen := false }

/-- The state right after startup: loop polling, channel open and
empty, shutdown not requested, buses open. -/
def initSys : SysState := ⟨.running, .empty, .notStarted, true⟩

/-- Some step of either goroutine, any label. -/
def StepAny (x y : SysState) : Prop := ∃ l, Step x l y

/-- States the system can be in after startup. -/
def Reachable (s : SysState) : Prop :=
  Relation.ReflTransGen StepAny initSys s

/-- Invariant of the shutdown handshake: the shutdown caller's receive
can only have completed (and the buses only be closed) once the loop
has stopped, because `quitCh` is closed by the loop's deferred close
alone. -/
def ShutdownInv (s : SysState) : Prop :=
  ((s.sd = .returned ∨ s.sd = .busesClosed) → s.loop = .stopped) ∧
  (s.busOpen = false → s.loop = .stopped) ∧
  (s.quitCh = .closed → s.loop = .stopped)


/-- A signal body carrying the `OnBattery` property with a boolean
value, preceded by the interface-name element, as UPower delivers
property-change signals. -/
def obEv (b : Bool) : Input :=
  .sig [.other "string", .propMap [(onBattery, .vBool b)]]

/-- An environment in which every external call succeeds and the
machine reports it is on battery. -/
def envAllOk : Env :=
  ⟨.ok (), .ok .primaryOwner, .ok (), .ok (.goBool true), .ok (), none⟩

lemma vStr_head (s : String) :
    (Variant.string (.vStr s)).data.head? = some '"' := by
  obtain ⟨l⟩ := s
  rfl

lemma vStr_string_ne (s t : String) (h : t.data.head? ≠ some '"') :
    Variant.string (.vStr s) ≠ t := by
  intro he
  apply h
  rw [← he, vStr_head]

lemma classifyVariant_vStr (s : String) :
    classifyVariant (.vStr s) = UNKNOWN := by
  have h1 : Variant.string (.vStr s) ≠ "true" :=
    vStr_string_ne s "true" (by decide)
  have h2 : Variant.string (.vStr s) ≠ "false" :=
    vStr_string_ne s "false" (by decide)
  simp [classifyVariant, h1, h2]

lemma runLoop_sig_onBattery (verbose : Bool) (action : String)
    (st : powerState) (b0 : BodyElem) (m : List (String × Variant))
    (v : Variant) (rest : List Input) (outs : List ActionOutcome)
    (h : m.lookup onBattery = some v) :
    runLoop verbose action st (.sig [b0, .propMap m] :: rest) outs =
      match runLoop verbose action (classifyVariant v) rest outs.tail with
      | .ok (stf, acts, logs) =>
          .ok (stf,
            (stateChange verbose action (classifyVariant v) (outs.headD none)).1 :: acts,
            (stateChange verbose action (classifyVariant v) (outs.headD none)).2 ++ logs)
      | r => r := by
  simp [runLoop, h]

lemma runLoop_sig_skip (verbose : Bool) (action : String)
    (st : powerState) (b0 : BodyElem) (m : List (String × Variant))
    (rest : List Input) (outs : List ActionOutcome)
    (h : m.lookup onBattery = none) :
    runLoop verbose action st (.sig [b0, .propMap m] :: rest) outs =
      runLoop verbose action st rest outs := by
  simp [runLoop, h]

lemma runLoop_sig_onBattery_single (verbose : Bool) (action : String)
    (st : powerState) (b0 : BodyElem) (m : List (String × Variant))
    (v : Variant) (outs : List ActionOutcome)
    (h : m.lookup onBattery = some v) :
    runLoop verbose action st [.sig [b0, .propMap m]] outs =
      .ok (classifyVariant v,
        [(stateChange verbose action (classifyVariant v) (outs.headD none)).1],
        (stateChange verbose action (classifyVariant v) (outs.headD none)).2) := by
  rw [runLoop_sig_onBattery verbose action st b0 m v [] outs h]
  simp [runLoop]

lemma stateChange_fst (verbose : Bool) (action : String)
    (st : powerState) (fail : ActionOutcome) :
    (stateChange verbose action st fail).1 = execCall action st := rfl

lemma runLoop_outs_irrelevant (verbose : Bool) (action : String) :
    ∀ (ins : List Input) (st : powerState) (outs outs' : List ActionOutcome),
    stripLogs (runLoop verbose action st ins outs) =
      stripLogs (runLoop verbose action st ins outs')
  | [], _, _, _ => rfl
  | .quit :: _, _, _, _ => rfl
  | .sig body :: rest, st, outs, outs' => by
    match hb : (body[1]? : Option BodyElem) with
    | none => simp [runLoop, hb]
    | some (.other t) => simp [runLoop, hb]
    | some (.propMap m) =>
      match hm : m.lookup onBattery with
      | none =>
        simp only [runLoop, hb, hm]
        exact runLoop_outs_irrelevant verbose action rest st outs outs'
      | some v =>
        simp only [runLoop, hb, hm]
        have ih := runLoop_outs_irrelevant verbose action rest
          (classifyVariant v) outs.tail outs'.tail
        cases h1 : runLoop verbose action (classifyVariant v) rest outs.tail <;>
          cases h2 : runLoop verbose action (classifyVariant v) rest outs'.tail <;>
            simp_all [stripLogs, stateChange_fst]


lemma shutdownInv_init : ShutdownInv initSys := by
  refine ⟨?_, ?_, ?_⟩ <;> intro h <;> simp [initSys] at h

lemma shutdownInv_step {s s' : SysState} {l : Label}
    (hs : ShutdownInv s) (h : Step s l s') : ShutdownInv s' := by
  obtain ⟨a, b, c⟩ := hs
  cases h with
  | event h => exact ⟨a, b, c⟩
  | recvQuit hl hq => exact ⟨fun _ => rfl, fun _ => rfl, fun _ => rfl⟩
  | sendQuit h1 h2 =>
    refine ⟨?_, ?_, ?_⟩ <;> intro h <;> simp_all
  | ackQuit h1 h2 =>
    refine ⟨?_, ?_, ?_⟩ <;> intro h <;> simp_all
  | closeBuses h1 =>
    refine ⟨?_, ?_, ?_⟩ <;> intro h <;> simp_all

lemma reachable_shutdownInv {s : SysState} (h : Reachable s) :
    ShutdownInv s := by
  induction h with
  | refl => exact shutdownInv_init
  | tail hr hstep ih =>
    obtain ⟨l, hst⟩ := hstep
    exact shutdownInv_step ih hst

lemma reachable_final :
    Reachable ⟨.stopped, .closed, .busesClosed, false⟩ := by
  have h1 : StepAny initSys ⟨.running, .pending, .sentQuit, true⟩ :=
    ⟨.sendQuit, Step.sendQuit initSys rfl rfl⟩
  have h2 : StepAny ⟨.running, .pending, .sentQuit, true⟩
      ⟨.stopped, .closed, .sentQuit, true⟩ :=
    ⟨.recvQuit, Step.recvQuit _ rfl rfl⟩
  have h3 : StepAny ⟨.stopped, .closed, .sentQuit, true⟩
      ⟨.stopped, .closed, .returned, true⟩ :=
    ⟨.ackQuit, Step.ackQuit _ rfl rfl⟩
  have h4 : StepAny ⟨.stopped, .closed, .returned, true⟩
      ⟨.stopped, .closed, .busesClosed, false⟩ :=
    ⟨.closeBuses, Step.closeBuses _ rfl⟩
  exact .head h1 (.head h2 (.head h3 (.head h4 .refl)))


/-- C1 (counterexample): starting in state `ON_BATTERY`, two
consecutive notifications that both carry `OnBattery = true` — hence
both classify to the current, unchanged state — make the loop invoke
the action twice, not at most once: the code performs no transition
comparison before calling `stateChange`. -/
theorem c1_counterexample :
    runLoop false "act" ON_BATTERY [obEv true, obEv true] [] =
      .ok (ON_BATTERY, [⟨"act", "ON_BATTERY"⟩, ⟨"act", "ON_BATTERY"⟩], []) ∧
    ¬ ([(⟨"act", "ON_BATTERY"⟩ : ExecCall), ⟨"act", "ON_BATTERY"⟩].length ≤ 1) :=
  ⟨by decide, by decide⟩

/-- C1 (amended): every notification carrying the `OnBattery` property
triggers exactly one action invocation, with the classified state —
also when that state equals the current one: an unchanged value is not
detected (there is no transition comparison) and the action is re-run. -/
theorem c1_every_onBattery_acts (verbose : Bool) (action : String)
    (st : powerState) (b0 : BodyElem) (m : List (String × Variant))
    (v : Variant) (outs : List ActionOutcome)
    (h : m.lookup onBattery = some v) :
    runLoop verbose action st [.sig [b0, .propMap m]] outs =
      .ok (classifyVariant v, [execCall action (classifyVariant v)],
        (stateChange verbose action (classifyVariant v) (outs.headD none)).2) := by
  rw [runLoop_sig_onBattery_single verbose action st b0 m v outs h]
  rfl

/-- C1 amended, witness: a concrete `OnBattery = true` notification
received while already in `ON_BATTERY` still produces one invocation. -/
theorem c1_witness :
    runLoop false "act" ON_BATTERY [obEv true] [] =
      .ok (ON_BATTERY, [⟨"act", "ON_BATTERY"⟩], []) := by
  have h := c1_every_onBattery_acts false "act" ON_BATTERY (.other "string")
    [(onBattery, .vBool true)] (.vBool true) [] rfl
  exact h

/-- C2: a notification whose property map lacks `OnBattery` is
ignored: processing it is identical to never receiving it, so the
state is unchanged and no action is invoked. -/
theorem c2_missing_onBattery_ignored (verbose : Bool) (action : String)
    (st : powerState) (b0 : BodyElem) (m : List (String × Variant))
    (rest : List Input) (outs : List ActionOutcome)
    (h : m.lookup onBattery = none) :
    runLoop verbose action st (.sig [b0, .propMap m] :: rest) outs =
      runLoop verbose action st rest outs ∧
    runLoop verbose action st [.sig [b0, .propMap m]] outs =
      .ok (st, [], []) := by
  refine ⟨runLoop_sig_skip verbose action st b0 m rest outs h, ?_⟩
  rw [runLoop_sig_skip verbose action st b0 m [] outs h]
  rfl

/-- C2 witness: a lid-closed-only notification leaves the state at
`AC_POWER` and runs nothing. -/
theorem c2_witness :
    runLoop true "act" AC_POWER
      [.sig [.other "string", .propMap [("LidClosed", .vBool true)]]] [] =
      .ok (AC_POWER, [], []) :=
  (c2_missing_onBattery_ignored true "act" AC_POWER (.other "string")
    [("LidClosed", .vBool true)] [] [] (by decide)).2

/-- C3: when `OnBattery` is present the loop overwrites the state with
the classification of the variant — boolean `true` gives `ON_BATTERY`,
boolean `false` gives `AC_POWER`, any other encoding gives `UNKNOWN` —
and in every case (including `UNKNOWN`) dispatches the action with the
resulting state. -/
theorem c3_onBattery_classified_and_dispatched (verbose : Bool)
    (action : String) (st : powerState) (b0 : BodyElem)
    (m : List (String × Variant)) (v : Variant)
    (outs : List ActionOutcome) (h : m.lookup onBattery = some v) :
    runLoop verbose action st [.sig [b0, .propMap m]] outs =
      .ok (classifyVariant v, [execCall action (classifyVariant v)],
        (stateChange verbose action (classifyVariant v) (outs.headD none)).2) ∧
    classifyVariant (.vBool true) = ON_BATTERY ∧
    classifyVariant (.vBool false) = AC_POWER ∧
    ∀ s, classifyVariant (.vStr s) = UNKNOWN := by
  refine ⟨?_, by decide, by decide, classifyVariant_vStr⟩
  rw [runLoop_sig_onBattery_single verbose action st b0 m v outs h]
  rfl

/-- C3 witness: a malformed (non-boolean) `OnBattery` value classifies
to `UNKNOWN` and the action is dispatched with `UNKNOWN`. -/
theorem c3_witness :
    runLoop false "act" ON_BATTERY
      [.sig [.other "string", .propMap [(onBattery, .vStr "garbled")]]] [] =
      .ok (UNKNOWN, [⟨"act", "UNKNOWN"⟩], []) := by
  have h := (c3_onBattery_classified_and_dispatched false "act" ON_BATTERY
    (.other "string") [(onBattery, .vStr "garbled")] (.vStr "garbled") []
    (by decide)).1
  simpa [classifyVariant_vStr, execCall, powerState.String, states,
    stateChange, maybeLog] using h

/-- C4: with the buses connected, the name owned and the subscription
set up, startup constructs the monitor and triggers exactly one action
invocation with the state derived from the initial query — `true`
gives `ON_BATTERY`, `false` gives `AC_POWER`, and a failed query logs
unconditionally, falls back to `UNKNOWN` and is not fatal; an empty
input stream afterwards adds no further invocation. -/
theorem c4_startup_one_action (verbose : Bool) (action : String)
    (env : Env) (st : powerState) (logs0 : List LogEntry)
    (h1 : env.sessBus = .ok ()) (h2 : env.reqName = .ok .primaryOwner)
    (h3 : env.sysBus = .ok ()) (h4 : env.addMatch = .ok ())
    (h5 : initialState env.getProp = .ok (st, logs0)) :
    newPowermon verbose action env =
      .ok ⟨⟨action, st⟩,
        logs0 ++ (stateChange verbose action st env.startAction).2,
        [execCall action st]⟩ ∧
    (∀ e, initialState (.error e) =
      .ok (UNKNOWN, reallyLog (.failedGetBattery e))) ∧
    initialState (.ok (.goBool true)) = .ok (ON_BATTERY, []) ∧
    initialState (.ok (.goBool false)) = .ok (AC_POWER, []) ∧
    runLoop verbose action st [] [] = .ok (st, [], []) := by
  refine ⟨?_, fun e => rfl, rfl, rfl, rfl⟩
  simp [newPowermon, h1, h2, h3, h4, h5, stateChange_fst]

/-- C4 witness: an all-successful startup reporting on-battery makes
exactly the one invocation `act ON_BATTERY`. -/
theorem c4_witness :
    newPowermon false "cmd" envAllOk =
      .ok ⟨⟨"cmd", ON_BATTERY⟩, [], [⟨"cmd", "ON_BATTERY"⟩]⟩ := by
  have h := (c4_startup_one_action false "cmd" envAllOk ON_BATTERY []
    rfl rfl rfl rfl rfl).1
  exact h

/-- C5 (counterexample): with the default (non-verbose) configuration
a failing action invocation produces no log output at all — neither
the error nor the captured combined output is logged, contrary to the
claim. -/
theorem c5_counterexample :
    (stateChange false "cmd" UNKNOWN (some ("spawn failed", "oops"))).2 = [] ∧
    LogEntry.errRunning "cmd" "UNKNOWN" "spawn failed" ∉
      (stateChange false "cmd" UNKNOWN (some ("spawn failed", "oops"))).2 ∧
    LogEntry.errOutput "oops" ∉
      (stateChange false "cmd" UNKNOWN (some ("spawn failed", "oops"))).2 :=
  ⟨rfl, by decide, by decide⟩

/-- C5 (amended): action-failure logging is gated on the `--verbose`
flag: when verbose is set, a failing invocation logs the error and the
captured combined output; when it is not set, nothing is logged. -/
theorem c5_failure_logged_when_verbose (action : String)
    (st : powerState) (e out : String) :
    LogEntry.errRunning action st.String e ∈
      (stateChange true action st (some (e, out))).2 ∧
    LogEntry.errOutput out ∈
      (stateChange true action st (some (e, out))).2 ∧
    (stateChange false action st (some (e, out))).2 = [] := by
  refine ⟨?_, ?_, rfl⟩ <;> simp [stateChange, maybeLog]

/-- C6: an action failure is absorbed inside `stateChange`: the loop's
final state and the sequence of invocations it makes do not depend on
the outcomes of those invocations at all, and after a failing action
the next notification carrying `OnBattery` is still processed and its
action invoked. -/
theorem c6_action_failure_absorbed :
    (∀ (verbose : Bool) (action : String) (ins : List Input)
      (st : powerState) (outs outs' : List ActionOutcome),
      stripLogs (runLoop verbose action st ins outs) =
        stripLogs (runLoop verbose action st ins outs')) ∧
    (∀ (verbose : Bool) (action : String) (st : powerState)
      (b0 b1 : BodyElem) (m0 m1 : List (String × Variant))
      (v0 v1 : Variant) (e out : String),
      m0.lookup onBattery = some v0 → m1.lookup onBattery = some v1 →
      stripLogs (runLoop verbose action st
        [.sig [b0, .propMap m0], .sig [b1, .propMap m1]] [some (e, out)]) =
        .ok (classifyVariant v1,
          [execCall action (classifyVariant v0),
            execCall action (classifyVariant v1)])) := by
  refine ⟨fun verbose action => runLoop_outs_irrelevant verbose action, ?_⟩
  intro verbose action st b0 b1 m0 m1 v0 v1 e out h0 h1
  rw [runLoop_sig_onBattery verbose action st b0 m0 v0 _ _ h0]
  rw [runLoop_sig_onBattery_single verbose action (classifyVariant v0)
    b1 m1 v1 _ h1]
  simp [stripLogs, stateChange_fst]

/-- C6 witness: the first action fails (non-zero exit) and the next
notification is still processed, with its action invoked. -/
theorem c6_witness :
    stripLogs (runLoop true "act" AC_POWER [obEv true, obEv false]
      [some ("exit status 1", "no handler")]) =
      .ok (AC_POWER, [⟨"act", "ON_BATTERY"⟩, ⟨"act", "AC_POWER"⟩]) := by
  have h := c6_action_failure_absorbed.2 true "act" AC_POWER
    (.other "string") (.other "string") [(onBattery, .vBool true)]
    [(onBattery, .vBool false)] (.vBool true) (.vBool false)
    "exit status 1" "no handler" rfl rfl
  exact h

/-- C7: in the shutdown handshake, the shutdown caller's receive can
complete — and the bus connections can be closed — only once the event
loop has stopped; a stopped loop takes no further event-processing
step; and a quit input makes the loop return at once, processing none
of the later inputs and invoking no action. -/
theorem c7_shutdown_handshake :
    (∀ s : SysState, Reachable s →
      ((s.sd = .returned ∨ s.sd = .busesClosed) → s.loop = .stopped) ∧
      (s.busOpen = false → s.loop = .stopped)) ∧
    (∀ s s' : SysState, s.loop = .stopped → ¬ Step s .event s') ∧
    (∀ (verbose : Bool) (action : String) (st : powerState)
      (rest : List Input) (outs : List ActionOutcome),
      runLoop verbose action st (.quit :: rest) outs =
        .ok (st, [], maybeLog verbose .shuttingDown)) := by
  refine ⟨?_, ?_, fun _ _ _ _ _ => rfl⟩
  · intro s hs
    have h := reachable_shutdownInv hs
    exact ⟨h.1, h.2.1⟩
  · intro s s' hstop hstep
    cases hstep with
    | event h => rw [hstop] at h; exact LoopPhase.noConfusion h

/-- C7 witness: the fully-shut-down state is reachable and the theorem
confirms its loop is stopped because its buses are closed. -/
theorem c7_witness :
    SysState.loop ⟨.stopped, .closed, .busesClosed, false⟩ = .stopped :=
  (c7_shutdown_handshake.1 ⟨.stopped, .closed, .busesClosed, false⟩
    reachable_final).2 rfl

/-- C8: a failed session-bus connection, a failed system-bus
connection, or a failed subscription setup makes `newPowermon` return
an error, on which `main` exits with code 1. -/
theorem c8_setup_failures_fatal (verbose : Bool) (action : String)
    (env : Env)
    (h : (∃ e, env.sessBus = .error e) ∨
      (env.sessBus = .ok () ∧ env.reqName = .ok .primaryOwner ∧
        (∃ e, env.sysBus = .error e)) ∨
      (env.sessBus = .ok () ∧ env.reqName = .ok .primaryOwner ∧
        env.sysBus = .ok () ∧
        (∃ st logs0, initialState env.getProp = .ok (st, logs0)) ∧
        (∃ e, env.addMatch = .error e))) :
    (∃ msg, newPowermon verbose action env = .err msg) ∧
    mainSetupExit (newPowermon verbose action env) = some 1 := by
  rcases h with ⟨e, he⟩ | ⟨h1, h2, e, he⟩ | ⟨h1, h2, h3, ⟨st, logs0, h4⟩, e, he⟩
  · have hn : newPowermon verbose action env =
        .err ("session bus connect failed: " ++ e) := by
      simp [newPowermon, he]
    exact ⟨⟨_, hn⟩, by rw [hn]; rfl⟩
  · have hn : newPowermon verbose action env =
        .err ("system bus connect failed: " ++ e) := by
      simp [newPowermon, h1, h2, he]
    exact ⟨⟨_, hn⟩, by rw [hn]; rfl⟩
  · have hn : newPowermon verbose action env =
        .err ("couldn't setup signal listener: " ++ e) := by
      simp [newPowermon, h1, h2, h3, h4, he]
    exact ⟨⟨_, hn⟩, by rw [hn]; rfl⟩

/-- C8 witness: a rejected match-rule installation aborts startup with
exit code 1. -/
theorem c8_witness :
    mainSetupExit (newPowermon false "cmd"
      { envAllOk with addMatch := .error "match rule rejected" }) = some 1 :=
  (c8_setup_failures_fatal false "cmd"
    { envAllOk with addMatch := .error "match rule rejected" }
    (.inr (.inr ⟨rfl, rfl, rfl, ⟨ON_BATTERY, [], rfl⟩, ⟨_, rfl⟩⟩))).2

/-- C9: payload decoding is unguarded: a signal body without an
element at index 1 panics (index out of range); a body whose element 1
is not a property map panics (failed type assertion); and a successful
initial property read whose value is not a boolean panics inside
`newPowermon` — none of these cases is treated as `UNKNOWN` or
ignored. -/
theorem c9_unguarded_decoding_panics :
    (∀ (verbose : Bool) (action : String) (st : powerState)
      (rest : List Input) (outs : List ActionOutcome),
      runLoop verbose action st (.sig [] :: rest) outs =
        .panicked "runtime error: index out of range" ∧
      ∀ b0, runLoop verbose action st (.sig [b0] :: rest) outs =
        .panicked "runtime error: index out of range") ∧
    (∀ (verbose : Bool) (action : String) (st : powerState) (b0 : BodyElem)
      (t : String) (rest : List Input) (outs : List ActionOutcome),
      runLoop verbose action st (.sig [b0, .other t] :: rest) outs =
        .panicked ("interface conversion: interface \x7b\x7d is " ++ t ++
          ", not map[string]dbus.Variant")) ∧
    (∀ (verbose : Bool) (action : String) (env : Env) (t : String),
      env.sessBus = .ok () → env.reqName = .ok .primaryOwner →
      env.sysBus = .ok () → env.getProp = .ok (.goOther t) →
      newPowermon verbose action env =
        .panicked ("interface conversion: interface \x7b\x7d is " ++ t ++
          ", not bool")) := by
  refine ⟨fun _ _ _ _ _ => ⟨rfl, fun b0 => rfl⟩, fun _ _ _ _ _ _ _ => rfl, ?_⟩
  intro verbose action env t h1 h2 h3 h4
  simp [newPowermon, initialState, h1, h2, h3, h4]

/-- C9 witness: a property read that yields a D-Bus string instead of
a boolean panics at the unguarded assertion in `newPowermon`. -/
theorem c9_witness :
    newPowermon false "cmd" { envAllOk with getProp := .ok (.goOther "string") } =
      .panicked "interface conversion: interface \x7b\x7d is string, not bool" := by
  have h := c9_unguarded_decoding_panics.2.2 false "cmd"
    { envAllOk with getProp := .ok (.goOther "string") } "string" rfl rfl rfl rfl
  exact h

/-- C10: stringification is total over the underlying 8-bit type: the
three enumerated states map to their names, every one of the remaining
253 values maps to the empty string (the Go map zero value), and hence
an out-of-range state would be passed to the action as an empty
argument rather than failing. -/
theorem c10_string_total :
    powerState.String UNKNOWN = "UNKNOWN" ∧
    powerState.String ON_BATTERY = "ON_BATTERY" ∧
    powerState.String AC_POWER = "AC_POWER" ∧
    (∀ ps : powerState, ps ≠ UNKNOWN → ps ≠ ON_BATTERY → ps ≠ AC_POWER →
      powerState.String ps = "") ∧
    (∀ (action : String) (ps : powerState),
      ps ≠ UNKNOWN → ps ≠ ON_BATTERY → ps ≠ AC_POWER →
      (execCall action ps).arg = "") := by
  have key : ∀ ps : powerState, ps ≠ UNKNOWN → ps ≠ ON_BATTERY →
      ps ≠ AC_POWER → powerState.String ps = "" := by
    set_option maxRecDepth 4096 in decide
  exact ⟨rfl, rfl, rfl, key, fun action ps h1 h2 h3 => key ps h1 h2 h3⟩

/-- C10 witness: the out-of-range state 17 stringifies to the empty
string and would reach the action as an empty argument. -/
theorem c10_witness :
    powerState.String (17 : powerState) = "" ∧
    (execCall "cmd" (17 : powerState)).arg = "" :=
  ⟨c10_string_total.2.2.2.1 17 (by decide) (by decide) (by decide),
    c10_string_total.2.2.2.2 "cmd" 17 (by decide) (by decide) (by decide)⟩

end Powermon
